import Mathlib

/-!
Verification of the `homepage-geoip-heatmap` service (`src/app.py`) against its
specification.  The development shallowly embeds the data pipeline of the
service: query building (`_build_query`), the upstream HTTP client
(`_influx_query`), the response transformer (`_parse_points`) including the
point capper, the TTL cache around the `/data` endpoint, and the two debug
endpoints.  Python floats are embedded as rationals (`ℚ`); Python's dynamic
typing and exceptions are embedded with an explicit `Except PyErr` monad so
that the places where the source can raise are visible in the model.
-/

namespace Heatmap

/-- A JSON value, as produced by `requests.Response.json()` and consumed by
`_parse_points`.  Objects are association lists with string keys (Python
`dict` from the `json` module); numbers are embedded as rationals. -/
inductive JVal where
  | null
  | bool (b : Bool)
  | num (q : ℚ)
  | str (s : String)
  | arr (xs : List JVal)
  | obj (kvs : List (String × JVal))

/-- The Python exceptions that the embedded fragments of `app.py` can raise. -/
inductive PyErr where
  | typeError
  | attributeError
  | keyError
  | indexError
deriving DecidableEq

/-- Python truthiness (`bool(x)`) of a JSON value: `None`, `False`, `0`, `""`,
`[]` and `\x7b\x7d` are falsy, everything else is truthy. -/
def truthy : JVal → Bool
  | .null => false
  | .bool b => b
  | .num q => !(decide (q = 0))
  | .str s => !(decide (s = ""))
  | .arr xs => !xs.isEmpty
  | .obj kvs => !kvs.isEmpty

/-- Lookup of a key in an embedded JSON object, `None` (`JVal.null`) when the
key is absent — exactly the behaviour of Python's `dict.get`. -/
def lookupD (kvs : List (String × JVal)) (k : String) : JVal :=
  match kvs.lookup k with
  | some v => v
  | none => .null

/-- Python `x.get(k)`: returns the value (or `None`) when `x` is a dict and
raises `AttributeError` otherwise. -/
def pyGet : JVal → String → Except PyErr JVal
  | .obj kvs, k => .ok (lookupD kvs k)
  | _, _ => .error .attributeError

/-- Python `x[i]` for a non-negative integer literal `i`: element of a list,
one-character string of a string, `KeyError` for a dict with string keys,
`TypeError` for non-subscriptable values, `IndexError` out of range. -/
def pySubscript : JVal → Nat → Except PyErr JVal
  | .arr xs, i =>
    match xs[i]? with
    | some v => .ok v
    | none => .error .indexError
  | .str s, i =>
    match s.data[i]? with
    | some c => .ok (.str (String.mk [c]))
    | none => .error .indexError
  | .obj _, _ => .error .keyError
  | _, _ => .error .typeError

/-- Python `len(x)`: defined for lists, strings and dicts, `TypeError`
otherwise. -/
def pyLen : JVal → Except PyErr Nat
  | .arr xs => .ok xs.length
  | .str s => .ok s.data.length
  | .obj kvs => .ok kvs.length
  | _ => .error .typeError

/-- Python `for x in v`: iterates list elements, the characters of a string,
the keys of a dict; raises `TypeError` for non-iterable values. -/
def pyIter : JVal → Except PyErr (List JVal)
  | .arr xs => .ok xs
  | .str s => .ok (s.data.map fun c => .str (String.mk [c]))
  | .obj kvs => .ok (kvs.map fun kv => .str kv.1)
  | _ => .error .typeError

/-- Whether a JSON value is Python's `None`. -/
def isNull : JVal → Bool
  | .null => true
  | _ => false

/-- The characters Python's `str.isspace()` recognises, which are exactly
the characters `str.strip()` (and `float()` on strings) removes: the ASCII
whitespace `\x09`-`\x0d` and space, the information separators
`\x1c`-`\x1f`, next-line `\x85`, no-break space `\xa0`, and the Unicode
Zs/Zl/Zp space separators (U+1680, U+2000-U+200A, U+2028, U+2029, U+202F,
U+205F, U+3000). -/
def isPySpace (c : Char) : Bool :=
  let n := c.toNat
  (0x09 ≤ n && n ≤ 0x0d) || n == 0x20 || (0x1c ≤ n && n ≤ 0x1f) ||
    n == 0x85 || n == 0xa0 || n == 0x1680 ||
    (0x2000 ≤ n && n ≤ 0x200a) || n == 0x2028 || n == 0x2029 ||
    n == 0x202f || n == 0x205f || n == 0x3000

/-- Python `str.strip()` on the character list of a string. -/
def pyStripChars (cs : List Char) : List Char :=
  ((cs.dropWhile isPySpace).reverse.dropWhile isPySpace).reverse

/-- Python `str.strip()`. -/
def pyStrip (s : String) : String :=
  String.mk (pyStripChars s.data)

/-- Numeric value of a list of decimal digit characters. -/
def natOfDigits (cs : List Char) : Nat :=
  cs.foldl (fun n c => n * 10 + (c.toNat - 48)) 0

/-- Unsigned exponent part of a Python float literal: one or more digits
consuming the whole remaining input. -/
def parseUExp (cs : List Char) : Option Int :=
  let ds := cs.takeWhile Char.isDigit
  if ds.isEmpty || !((cs.dropWhile Char.isDigit).isEmpty) then none
  else some (natOfDigits ds : Int)

/-- Optionally signed exponent part of a Python float literal. -/
def parseSignedExp (cs : List Char) : Option Int :=
  match cs with
  | '+' :: t => parseUExp t
  | '-' :: t => (parseUExp t).map (fun n => -n)
  | t => parseUExp t

/-- What may follow the mantissa of a Python float literal: nothing, or an
`e`/`E` exponent. -/
def parseAfterMantissa : List Char → Option Int
  | [] => some 0
  | 'e' :: t => parseSignedExp t
  | 'E' :: t => parseSignedExp t
  | _ => none

/-- The rational value `sgn * ipart.fpart * 10^ex` of a parsed decimal
literal, built from integer arithmetic and `mkRat` only. -/
def mantissaVal (sgn : Int) (ipart fpart : List Char) (ex : Int) : ℚ :=
  let m : Int := sgn * (natOfDigits (ipart ++ fpart) : Int)
  let e : Int := ex - fpart.length
  if 0 ≤ e then mkRat (m * (10 : Int) ^ e.toNat) 1
  else mkRat m ((10 : Nat) ^ (-e).toNat)

/-- Mantissa (and optional exponent) of a Python float literal after the
optional sign: digits, optionally a decimal point with further digits, with
at least one digit overall. -/
def parseMantissa (sgn : Int) (body : List Char) : Option ℚ :=
  let ipart := body.takeWhile Char.isDigit
  let rest1 := body.dropWhile Char.isDigit
  match rest1 with
  | '.' :: rest2 =>
    let fpart := rest2.takeWhile Char.isDigit
    let rest3 := rest2.dropWhile Char.isDigit
    if ipart.isEmpty && fpart.isEmpty then none
    else (parseAfterMantissa rest3).map (fun ex => mantissaVal sgn ipart fpart ex)
  | _ =>
    if ipart.isEmpty then none
    else (parseAfterMantissa rest1).map (fun ex => mantissaVal sgn ipart [] ex)

/-- Python `float(s)` on a string: surrounding whitespace stripped, optional
sign, finite decimal literal with optional exponent.  `none` embeds the
`ValueError` that `float` raises on anything else.  (The special forms
`inf`/`nan` and digit-group underscores accepted by CPython fall outside the
rational embedding and are treated as non-numeric; no claim depends on
them.) -/
def parseFloat? (s : String) : Option ℚ :=
  let cs := pyStripChars s.data
  match cs with
  | '+' :: t => parseMantissa 1 t
  | '-' :: t => parseMantissa (-1) t
  | t => parseMantissa 1 t

/-- Python `float(x)` on a JSON value: numbers are returned, booleans coerce
to `0`/`1`, strings are parsed, and `None`/lists/dicts raise `TypeError`
(embedded as `none`, which `_parse_points` catches together with
`ValueError`). -/
def pyFloat : JVal → Option ℚ
  | .num q => some q
  | .bool b => some (if b then 1 else 0)
  | .str s => parseFloat? s
  | _ => none

/-- The duration grammar `^[0-9]+(ms|s|m|h|d|w)$` of `_DURATION_RE`
(src/app.py line 71).  Since none of the unit suffixes starts with a digit,
a string matches the regex exactly when its maximal digit prefix is nonempty
and the remainder is one of the six unit suffixes. -/
def durationMatch (s : String) : Bool :=
  let ds := s.data.takeWhile Char.isDigit
  let rest := s.data.dropWhile Char.isDigit
  !ds.isEmpty &&
    (rest == ['m', 's'] || rest == ['s'] || rest == ['m'] || rest == ['h'] ||
      rest == ['d'] || rest == ['w'])

/-- Python `s.replace("\x22", "")`: removes every double-quote character. -/
def stripQuotes (s : String) : String :=
  String.mk (s.data.filter (fun c => !(c == '"')))

/-- Embeds `_build_query` (src/app.py lines 114-126), as a function of the
two environment values it reads: the window is stripped, checked against the
duration grammar with fallback `"24h"`, the measurement has double quotes
removed, and the fixed-shape InfluxQL aggregate query is assembled. -/
def buildQuery (HEATMAP_TIME_WINDOW GEO_MEASUREMENT : String) : String :=
  let window0 := pyStrip HEATMAP_TIME_WINDOW
  let window := if durationMatch window0 then window0 else "24h"
  let meas := stripQuotes GEO_MEASUREMENT
  "SELECT SUM(\"count\") AS hits FROM \"" ++ meas ++
    "\" WHERE time > now() - " ++ window ++ " GROUP BY \"latitude\",\"longitude\""

/-- A heatmap point `[lat, lon, weight]` as appended by `_parse_points`. -/
abbrev Point := ℚ × ℚ × ℚ

/-- Weight-descending comparison used by the point capper:
`p` may come before `q` when `q`'s weight is at most `p`'s. -/
def wge (p q : Point) : Prop := q.2.2 ≤ p.2.2

instance : DecidableRel wge := fun p q => inferInstanceAs (Decidable (q.2.2 ≤ p.2.2))

instance : IsTotal Point wge := ⟨fun a b => le_total b.2.2 a.2.2⟩

instance : IsTrans Point wge := ⟨fun _ _ _ h1 h2 => le_trans h2 h1⟩

/-- Embeds `points.sort(key=lambda p: p[2], reverse=True)` (src/app.py line
162).  Python's sort is a stable sort on the key, descending; a stable
insertion sort on the weight-descending relation has exactly the same
observable behaviour. -/
def sortDesc (l : List Point) : List Point :=
  List.insertionSort wge l

/-- Embeds the point capper (src/app.py lines 161-163): when the configured
maximum is truthy, positive, and exceeded, sort by weight descending and
truncate; otherwise return the list unchanged. -/
def cap (points : List Point) (mx : Int) : List Point :=
  if mx ≠ 0 ∧ 0 < mx ∧ mx < (points.length : Int) then
    (sortDesc points).take mx.toNat
  else points

/-- Embeds the per-series hit extraction (src/app.py lines 150-156):
`values = s.get("values") or []`, then `hits` is the float of the second
column of the first row when that row has length at least 2 and the entry is
not `None`, with `ValueError`/`TypeError` from `float` caught to `0.0`.
Errors from subscripting/`len` on ill-typed data are NOT caught in the
source and surface as `.error`. -/
def computeHits (values : JVal) : Except PyErr ℚ :=
  if truthy values then
    match pySubscript values 0 with
    | .error e => .error e
    | .ok row =>
      match pyLen row with
      | .error e => .error e
      | .ok l =>
        if 2 ≤ l then
          match pySubscript row 1 with
          | .error e => .error e
          | .ok el =>
            if isNull el then .ok 0
            else .ok ((pyFloat el).getD 0)
        else .ok 0
  else .ok 0

/-- Embeds one iteration of the series loop of `_parse_points` (src/app.py
lines 137-159): extract `latitude`/`longitude` tags (skip on missing or
non-coercible), compute the hits, and produce a point exactly when the hits
are strictly positive.  `.ok none` is Python's `continue` / no append. -/
def seriesPoint (s : JVal) : Except PyErr (Option Point) :=
  match pyGet s "tags" with
  | .error e => .error e
  | .ok tagsRaw =>
    let tags := if truthy tagsRaw then tagsRaw else .obj []
    match pyGet tags "latitude" with
    | .error e => .error e
    | .ok lat_s =>
      match pyGet tags "longitude" with
      | .error e => .error e
      | .ok lon_s =>
        if isNull lat_s || isNull lon_s then .ok none
        else
          match pyFloat lat_s, pyFloat lon_s with
          | some lat, some lon =>
            match pyGet s "values" with
            | .error e => .error e
            | .ok valuesRaw =>
              let values := if truthy valuesRaw then valuesRaw else .arr []
              match computeHits values with
              | .error e => .error e
              | .ok hits =>
                if 0 < hits then .ok (some (lat, lon, hits))
                else .ok none
          | _, _ => .ok none

/-- The accumulation loop `for s in series_list` of `_parse_points`,
appending the point of each series that yields one. -/
def seriesLoop : List JVal → List Point → Except PyErr (List Point)
  | [], acc => .ok acc
  | s :: rest, acc =>
    match seriesPoint s with
    | .error e => .error e
    | .ok (some p) => seriesLoop rest (acc ++ [p])
    | .ok none => seriesLoop rest acc

/-- Embeds `_parse_points` (src/app.py lines 129-165) including the
capping by `HEATMAP_MAX_POINTS` (passed as `mx`).  The `or []` fallbacks and
the early return on falsy `results` are modeled exactly; ill-typed payloads
surface the uncaught Python exception as `.error`. -/
def parsePointsE (mx : Int) (payload : JVal) : Except PyErr (List Point) :=
  match pyGet payload "results" with
  | .error e => .error e
  | .ok resultsRaw =>
    let results := if truthy resultsRaw then resultsRaw else .arr []
    if truthy results then
      match pySubscript results 0 with
      | .error e => .error e
      | .ok first =>
        match pyGet first "series" with
        | .error e => .error e
        | .ok seriesRaw =>
          let series_list := if truthy seriesRaw then seriesRaw else .arr []
          match pyIter series_list with
          | .error e => .error e
          | .ok items =>
            match seriesLoop items [] with
            | .error e => .error e
            | .ok pts => .ok (cap pts mx)
    else .ok []

/-- A `tags` entry that `seriesPoint` can consume without raising: a dict, or
any falsy value (replaced by `\x7b\x7d` via `or`). -/
def goodTags : JVal → Bool
  | .obj _ => true
  | v => !truthy v

/-- A `values` entry that `computeHits` can consume without raising: falsy,
or a list whose first row (if any) is itself a list. -/
def goodValues : JVal → Bool
  | .arr [] => true
  | .arr (row :: _) =>
    match row with
    | .arr _ => true
    | _ => false
  | v => !truthy v

/-- A series entry that the loop body can consume without raising. -/
def goodSeries : JVal → Bool
  | .obj kvs => goodTags (lookupD kvs "tags") && goodValues (lookupD kvs "values")
  | _ => false

/-- A first result that `_parse_points` can consume without raising: a dict
whose `series` is falsy or a list of good series. -/
def goodFirst : JVal → Bool
  | .obj kvs =>
    match lookupD kvs "series" with
    | .arr l => l.all goodSeries
    | v => !truthy v
  | _ => false

/-- Payloads on which `_parse_points` is total: a dict whose `results` is
falsy, or a list whose first element is a good result. -/
def wellShaped : JVal → Bool
  | .obj kvs =>
    match lookupD kvs "results" with
    | .arr [] => true
    | .arr (first :: _) => goodFirst first
    | v => !truthy v
  | _ => false

/-- An upstream HTTP response as seen by `_influx_query`: the status code,
the body text, and the decoded JSON body (`none` when `r.json()` would raise
a decode error). -/
structure HttpResp where
  status : Nat
  text : String
  json : Option JVal

/-- The failures `_influx_query` can raise: the `requests.HTTPError` from
`raise_for_status` (carrying the status and the logged 2000-character body
excerpt), or a JSON decode error from `r.json()`. -/
inductive InfluxErr where
  | httpError (status : Nat) (bodyExcerpt : String)
  | jsonDecodeError

/-- Python `s[:n]`: the first `n` characters of a string. -/
def strTake (n : Nat) (s : String) : String :=
  String.mk (s.data.take n)

/-- Embeds `_influx_query` (src/app.py lines 94-111) as a function of the
upstream response: for a status of at least 400 the body excerpt
`r.text[:2000]` is captured and `raise_for_status()` raises (it raises
exactly for statuses in [400, 600); the source never reaches the excerpt
branch without also raising, since its guard is `status_code >= 400` and
statuses of 600 and above do not occur in HTTP); otherwise the decoded JSON
body is returned. -/
def influxQuery (r : HttpResp) : Except InfluxErr JVal :=
  if 400 ≤ r.status ∧ r.status < 600 then
    .error (.httpError r.status (strTake 2000 r.text))
  else
    match r.json with
    | some j => .ok j
    | none => .error .jsonDecodeError

/-- The module-level cache of `/data` (src/app.py lines 66-68):
`_cache_at`, `_cache_points`, `_cache_last_error`. -/
structure CacheState where
  cache_at : ℚ
  cache_points : List Point
  cache_last_error : Option String

/-- The body of the JSON response served by `/data`: a point list (status
200) or, in debug mode on failure, a structured error object (status 502). -/
inductive DataResp where
  | pts (l : List Point)
  | errObj (e : String)

/-- Python `repr(e)` of a caught exception: always of the form
`ClassName(...)` and in particular never the empty string.  The class name is
fixed in the model, the argument rendering elided. -/
def pyRepr (msg : String) : String :=
  "Exception(" ++ msg ++ ")"

/-- Embeds one request to the `/data` endpoint (src/app.py lines 192-235) as
a state transition.  `ttl` is `HEATMAP_CACHE_SECONDS`, `dbg` the `DEBUG`
flag, `now` the value of `time.time()`, and `fetch` the outcome that the
fetch pipeline (`_build_query` → `_influx_query` → `_parse_points`) would
produce on this request.  Returns the new cache state, the response, and
whether the fetch pipeline was invoked. -/
def dataStep (ttl : Int) (dbg : Bool) (now : ℚ) (fetch : Except String (List Point))
    (st : CacheState) : CacheState × DataResp × Bool :=
  if 0 < ttl ∧ now - st.cache_at < (ttl : ℚ) then
    (st, .pts st.cache_points, false)
  else
    match fetch with
    | .ok pts => (⟨now, pts, none⟩, .pts pts, true)
    | .error e => (⟨now, [], some (pyRepr e)⟩, if dbg then .errObj e else .pts [], true)

/-- A plain-text HTTP response (body and status code). -/
structure TextResp where
  body : String
  status : Nat

/-- A JSON HTTP response (body and status code). -/
structure JsonResp where
  body : JVal
  status : Nat

/-- An optional string as a JSON value (`None` ↦ `null`). -/
def optStr : Option String → JVal
  | some s => .str s
  | none => .null

/-- Embeds the `/debug/query` handler (src/app.py lines 238-242): when debug
is off it returns the plain string `"Not Found"`, which FastAPI serves as a
`PlainTextResponse` with the default status 200; when debug is on it returns
the built query, also with status 200. -/
def debugQueryEndpoint (dbg : Bool) (window meas : String) : TextResp :=
  if !dbg then ⟨"Not Found", 200⟩
  else ⟨buildQuery window meas, 200⟩

/-- Embeds the `/debug/last_error` handler (src/app.py lines 245-249): a 404
JSON response when debug is off, otherwise the last recorded error with
status 200. -/
def debugLastErrorEndpoint (dbg : Bool) (lastErr : Option String) : JsonResp :=
  if !dbg then ⟨.obj [("detail", .str "Not Found")], 404⟩
  else ⟨.obj [("last_error", optStr lastErr)], 200⟩

/-- An upstream payload with one series carrying the example tags
`latitude = "51.5"`, `longitude = "-0.12"` and a single value row whose
count column is `cnt`. -/
def samplePayloadWith (cnt : JVal) : JVal :=
  .obj [("results", .arr [
    .obj [("series", .arr [
      .obj [
        ("tags", .obj [("latitude", .str "51.5"), ("longitude", .str "-0.12")]),
        ("values", .arr [.arr [.str "2024-01-01T00:00:00Z", cnt]])]])]])]

/-- The upstream payload of the end-to-end example: one series with the
example tags and a single value row with count 5. -/
def samplePayload : JVal := samplePayloadWith (.num 5)

end Heatmap

namespace Heatmap

/-! ## Helper lemmas -/

theorem sortDesc_perm (l : List Point) : (sortDesc l).Perm l :=
  List.perm_insertionSort wge l

theorem sortDesc_sorted (l : List Point) : List.Sorted wge (sortDesc l) :=
  List.sorted_insertionSort wge l

theorem sortDesc_length (l : List Point) : (sortDesc l).length = l.length :=
  (sortDesc_perm l).length_eq

theorem cap_eq_self_of_not {l : List Point} {mx : Int}
    (h : ¬ (mx ≠ 0 ∧ 0 < mx ∧ mx < (l.length : Int))) : cap l mx = l := by
  unfold cap
  rw [if_neg h]

theorem cap_eq_take {l : List Point} {mx : Int}
    (h : mx ≠ 0 ∧ 0 < mx ∧ mx < (l.length : Int)) :
    cap l mx = (sortDesc l).take mx.toNat := by
  unfold cap
  rw [if_pos h]

theorem cap_nil (mx : Int) : cap [] mx = [] := by
  apply cap_eq_self_of_not
  rintro ⟨h1, h2, h3⟩
  simp at h3
  omega

theorem length_cap_trunc {l : List Point} {mx : Int}
    (h1 : 0 < mx) (h2 : mx < (l.length : Int)) : (cap l mx).length = mx.toNat := by
  rw [cap_eq_take ⟨by omega, h1, h2⟩, List.length_take, sortDesc_length]
  omega

theorem mem_of_mem_cap {l : List Point} {mx : Int} {p : Point}
    (h : p ∈ cap l mx) : p ∈ l := by
  by_cases hc : mx ≠ 0 ∧ 0 < mx ∧ mx < (l.length : Int)
  · rw [cap_eq_take hc] at h
    exact (sortDesc_perm l).mem_iff.mp (List.mem_of_mem_take h)
  · rwa [cap_eq_self_of_not hc] at h

end Heatmap

namespace Heatmap

theorem seriesPoint_pos {s : JVal} {p : Point}
    (h : seriesPoint s = .ok (some p)) : 0 < p.2.2 := by
  unfold seriesPoint at h
  cases h1 : pyGet s "tags" with
  | error e => simp only [h1] at h; exact Except.noConfusion h
  | ok tagsRaw =>
    simp only [h1] at h
    cases h2 : pyGet (if truthy tagsRaw = true then tagsRaw else JVal.obj []) "latitude" with
    | error e => simp only [h2] at h; exact Except.noConfusion h
    | ok lat_s =>
      simp only [h2] at h
      cases h3 : pyGet (if truthy tagsRaw = true then tagsRaw else JVal.obj []) "longitude" with
      | error e => simp only [h3] at h; exact Except.noConfusion h
      | ok lon_s =>
        simp only [h3] at h
        by_cases h4 : (isNull lat_s || isNull lon_s) = true
        · simp only [if_pos h4] at h
          simp at h
        · simp only [if_neg h4] at h
          cases h5 : pyFloat lat_s with
          | none => simp only [h5] at h; simp at h
          | some lat =>
            simp only [h5] at h
            cases h6 : pyFloat lon_s with
            | none => simp only [h6] at h; simp at h
            | some lon =>
              simp only [h6] at h
              cases h7 : pyGet s "values" with
              | error e => simp only [h7] at h; exact Except.noConfusion h
              | ok valuesRaw =>
                simp only [h7] at h
                cases h8 : computeHits (if truthy valuesRaw = true then valuesRaw else JVal.arr []) with
                | error e => simp only [h8] at h; exact Except.noConfusion h
                | ok hits =>
                  simp only [h8] at h
                  by_cases h9 : 0 < hits
                  · simp only [if_pos h9] at h
                    cases h
                    exact h9
                  · simp only [if_neg h9] at h
                    simp at h

end Heatmap

namespace Heatmap

theorem seriesLoop_pos : ∀ (items : List JVal) (acc pts : List Point),
    (∀ p ∈ acc, 0 < p.2.2) → seriesLoop items acc = .ok pts →
    ∀ p ∈ pts, 0 < p.2.2 := by
  intro items
  induction items with
  | nil =>
    intro acc pts hacc h
    simp only [seriesLoop] at h
    cases h
    exact hacc
  | cons s rest ih =>
    intro acc pts hacc h
    unfold seriesLoop at h
    cases hsp : seriesPoint s with
    | error e => simp only [hsp] at h; exact Except.noConfusion h
    | ok r =>
      simp only [hsp] at h
      cases r with
      | none => exact ih acc pts hacc h
      | some q =>
        refine ih (acc ++ [q]) pts ?_ h
        intro p hp
        rcases List.mem_append.mp hp with hmem | hmem
        · exact hacc p hmem
        · rw [List.mem_singleton.mp hmem]
          exact seriesPoint_pos hsp

theorem parsePointsE_pos {mx : Int} {payload : JVal} {pts : List Point}
    (h : parsePointsE mx payload = .ok pts) : ∀ p ∈ pts, 0 < p.2.2 := by
  unfold parsePointsE at h
  cases h1 : pyGet payload "results" with
  | error e => simp only [h1] at h; exact Except.noConfusion h
  | ok resultsRaw =>
    simp only [h1] at h
    by_cases h2 : truthy (if truthy resultsRaw = true then resultsRaw else JVal.arr []) = true
    · rw [if_pos h2] at h
      cases h3 : pySubscript (if truthy resultsRaw = true then resultsRaw else JVal.arr []) 0 with
      | error e => simp only [h3] at h; exact Except.noConfusion h
      | ok first =>
        simp only [h3] at h
        cases h4 : pyGet first "series" with
        | error e => simp only [h4] at h; exact Except.noConfusion h
        | ok seriesRaw =>
          simp only [h4] at h
          cases h5 : pyIter (if truthy seriesRaw = true then seriesRaw else JVal.arr []) with
          | error e => simp only [h5] at h; exact Except.noConfusion h
          | ok items =>
            simp only [h5] at h
            cases h6 : seriesLoop items [] with
            | error e => simp only [h6] at h; exact Except.noConfusion h
            | ok pts0 =>
              simp only [h6] at h
              cases h
              intro p hp
              exact seriesLoop_pos items [] pts0 (by simp) h6 p (mem_of_mem_cap hp)
    · rw [if_neg h2] at h
      cases h
      intro p hp
      cases hp

end Heatmap

namespace Heatmap

theorem goodTags_obj {v : JVal} (h : goodTags v = true) :
    ∃ kvs, (if truthy v = true then v else JVal.obj []) = JVal.obj kvs := by
  by_cases ht : truthy v = true
  · rw [if_pos ht]
    cases v <;> first | exact ⟨_, rfl⟩ | simp_all [goodTags]
  · exact ⟨[], if_neg ht⟩

theorem computeHits_ok {vv : JVal} (h : goodValues vv = true) :
    ∃ q, computeHits (if truthy vv = true then vv else JVal.arr []) = .ok q := by
  by_cases ht : truthy vv = true
  · rw [if_pos ht]
    cases vv with
    | arr xs =>
      cases xs with
      | nil => simp [truthy] at ht
      | cons row rest =>
        cases row with
        | arr cells =>
          unfold computeHits
          rw [if_pos ht]
          simp only [pySubscript, List.getElem?_cons_zero, pyLen]
          by_cases hl : 2 ≤ cells.length
          · rw [if_pos hl]
            have h1 : 1 < cells.length := by omega
            simp only [List.getElem?_eq_getElem h1]
            split <;> exact ⟨_, rfl⟩
          · rw [if_neg hl]
            exact ⟨0, rfl⟩
        | null => simp [goodValues] at h
        | bool b => simp [goodValues] at h
        | num q => simp [goodValues] at h
        | str s => simp [goodValues] at h
        | obj kvs => simp [goodValues] at h
    | null => simp [truthy] at ht
    | bool b => simp_all [goodValues, truthy]
    | num q => simp_all [goodValues, truthy]
    | str s => simp_all [goodValues, truthy]
    | obj kvs => simp_all [goodValues, truthy]
  · rw [if_neg ht]
    refine ⟨0, ?_⟩
    unfold computeHits
    rw [if_neg (by simp [truthy])]

end Heatmap

namespace Heatmap

theorem seriesPoint_ok {s : JVal} (h : goodSeries s = true) :
    ∃ r, seriesPoint s = .ok r := by
  cases s with
  | obj kvs =>
    simp only [goodSeries, Bool.and_eq_true] at h
    obtain ⟨htags, hvals⟩ := h
    obtain ⟨tkvs, htk⟩ := goodTags_obj htags
    unfold seriesPoint
    simp only [pyGet]
    rw [htk]
    simp only [pyGet]
    by_cases h4 : (isNull (lookupD tkvs "latitude") || isNull (lookupD tkvs "longitude")) = true
    · rw [if_pos h4]
      exact ⟨none, rfl⟩
    · rw [if_neg h4]
      cases h5 : pyFloat (lookupD tkvs "latitude") with
      | none => exact ⟨none, rfl⟩
      | some lat =>
        cases h6 : pyFloat (lookupD tkvs "longitude") with
        | none => exact ⟨none, rfl⟩
        | some lon =>
          obtain ⟨q, hq⟩ := computeHits_ok hvals
          simp only [hq]
          split <;> exact ⟨_, rfl⟩
  | null => simp [goodSeries] at h
  | bool b => simp [goodSeries] at h
  | num q => simp [goodSeries] at h
  | str s => simp [goodSeries] at h
  | arr xs => simp [goodSeries] at h

theorem seriesLoop_ok : ∀ (items : List JVal), (∀ s ∈ items, goodSeries s = true) →
    ∀ acc, ∃ pts, seriesLoop items acc = .ok pts := by
  intro items
  induction items with
  | nil => exact fun _ acc => ⟨acc, rfl⟩
  | cons s rest ih =>
    intro hall acc
    obtain ⟨r, hr⟩ := seriesPoint_ok (hall s (by simp))
    have hrest : ∀ t ∈ rest, goodSeries t = true := fun t ht => hall t (by simp [ht])
    unfold seriesLoop
    simp only [hr]
    cases r with
    | some p => exact ih hrest (acc ++ [p])
    | none => exact ih hrest acc

end Heatmap

namespace Heatmap

theorem parsePointsE_ok_of_falsy_results {mx : Int} {kvs : List (String × JVal)}
    (h : truthy (lookupD kvs "results") = false) :
    parsePointsE mx (.obj kvs) = .ok [] := by
  unfold parsePointsE
  simp only [pyGet]
  have h2 : (if truthy (lookupD kvs "results") = true then lookupD kvs "results"
      else JVal.arr []) = JVal.arr [] := by rw [if_neg (by simp [h])]
  rw [h2, if_neg (by simp [truthy])]

theorem goodFirst_cases {fkvs : List (String × JVal)} (h : goodFirst (.obj fkvs) = true) :
    truthy (lookupD fkvs "series") = false ∨
    ∃ l, lookupD fkvs "series" = JVal.arr l ∧ ∀ s ∈ l, goodSeries s = true := by
  simp only [goodFirst] at h
  cases hser : lookupD fkvs "series" with
  | arr l =>
    right
    refine ⟨l, rfl, ?_⟩
    rw [hser] at h
    intro s hs
    exact List.all_eq_true.mp h s hs
  | null => left; rfl
  | bool b => left; rw [hser] at h; simp [truthy] at h ⊢; exact h
  | num q => left; rw [hser] at h; simp [truthy] at h ⊢; exact h
  | str t => left; rw [hser] at h; simp [truthy] at h ⊢; exact h
  | obj o => left; rw [hser] at h; simp [truthy] at h ⊢; exact h

theorem parsePointsE_total {mx : Int} {payload : JVal}
    (h : wellShaped payload = true) : ∃ pts, parsePointsE mx payload = .ok pts := by
  cases payload with
  | obj kvs =>
    unfold wellShaped at h
    by_cases ht : truthy (lookupD kvs "results") = true
    · cases hres : lookupD kvs "results" with
      | arr xs =>
        simp only [hres] at h
        cases xs with
        | nil => simp [hres, truthy] at ht
        | cons first restxs =>
          unfold parsePointsE
          simp only [pyGet, hres]
          rw [if_pos (by simp [truthy]), if_pos (by simp [truthy])]
          simp only [pySubscript, List.getElem?_cons_zero]
          cases first with
          | obj fkvs =>
            simp only [pyGet]
            rcases goodFirst_cases h with hf | ⟨l, heq, hall⟩
            · rw [if_neg (by simp [hf])]
              simp only [pyIter]
              exact ⟨cap [] mx, rfl⟩
            · rw [heq]
              by_cases htl : truthy (JVal.arr l) = true
              · rw [if_pos htl]
                simp only [pyIter]
                obtain ⟨pts, hloop⟩ := seriesLoop_ok l hall []
                rw [hloop]
                exact ⟨cap pts mx, rfl⟩
              · rw [if_neg htl]
                simp only [pyIter]
                exact ⟨cap [] mx, rfl⟩
          | null => simp [goodFirst] at h
          | bool b => simp [goodFirst] at h
          | num q => simp [goodFirst] at h
          | str t => simp [goodFirst] at h
          | arr a => simp [goodFirst] at h
      | null => rw [hres] at ht; simp [truthy] at ht
      | bool b => simp only [hres] at h; rw [hres] at ht; simp [ht] at h
      | num q => simp only [hres] at h; rw [hres] at ht; simp [ht] at h
      | str t => simp only [hres] at h; rw [hres] at ht; simp [ht] at h
      | obj o => simp only [hres] at h; rw [hres] at ht; simp [ht] at h
    · exact ⟨[], parsePointsE_ok_of_falsy_results (Bool.not_eq_true _ ▸ ht)⟩
  | null => simp [wellShaped] at h
  | bool b => simp [wellShaped] at h
  | num q => simp [wellShaped] at h
  | str t => simp [wellShaped] at h
  | arr a => simp [wellShaped] at h

end Heatmap

namespace Heatmap

/-! ## Claim theorems -/

/-- Claim C1, counterexample to the raw-string reading: the window string
`" 1h "` does not match the duration grammar, yet the built query uses the
window `1h` (the stripped string) and not the literal fallback `24h`,
because `_build_query` strips the string before validating it. -/
theorem buildQuery_raw_window_cex :
    durationMatch " 1h " = false ∧
    buildQuery " 1h " "geoip2influx" =
      "SELECT SUM(\"count\") AS hits FROM \"geoip2influx\" WHERE time > now() - 1h GROUP BY \"latitude\",\"longitude\"" ∧
    buildQuery " 1h " "geoip2influx" ≠
      "SELECT SUM(\"count\") AS hits FROM \"geoip2influx\" WHERE time > now() - 24h GROUP BY \"latitude\",\"longitude\"" :=
  ⟨by decide, rfl, by decide⟩

/-- Claim C1 (amended): for every window string whose whitespace-stripped
form does not match `^[0-9]+(ms|s|m|h|d|w)$`, `_build_query` produces a
query whose time window is the literal fallback `24h`; for every window
string whose stripped form matches the grammar, the produced query contains
that stripped window string verbatim. -/
theorem buildQuery_window_spec : ∀ (w m : String),
    (durationMatch (pyStrip w) = false →
      buildQuery w m =
        "SELECT SUM(\"count\") AS hits FROM \"" ++ stripQuotes m ++
          "\" WHERE time > now() - " ++ "24h" ++ " GROUP BY \"latitude\",\"longitude\"") ∧
    (durationMatch (pyStrip w) = true →
      buildQuery w m =
        "SELECT SUM(\"count\") AS hits FROM \"" ++ stripQuotes m ++
          "\" WHERE time > now() - " ++ pyStrip w ++ " GROUP BY \"latitude\",\"longitude\"") := by
  intro w m
  constructor <;> intro h <;> simp [buildQuery, h]

/-- Witness for `buildQuery_window_spec` at concrete inputs: an invalid
window falls back to `24h`, and a valid one is used verbatim. -/
theorem buildQuery_window_spec_witness :
    buildQuery "zzz" "geoip2influx" =
      "SELECT SUM(\"count\") AS hits FROM \"" ++ stripQuotes "geoip2influx" ++
        "\" WHERE time > now() - " ++ "24h" ++ " GROUP BY \"latitude\",\"longitude\"" ∧
    buildQuery "7d" "geoip2influx" =
      "SELECT SUM(\"count\") AS hits FROM \"" ++ stripQuotes "geoip2influx" ++
        "\" WHERE time > now() - " ++ pyStrip "7d" ++ " GROUP BY \"latitude\",\"longitude\"" :=
  ⟨(buildQuery_window_spec "zzz" "geoip2influx").1 (by decide),
   (buildQuery_window_spec "7d" "geoip2influx").2 (by decide)⟩

/-- Claim C6, counterexample to the non-2xx reading: a 304 response is not
a 2xx response, yet `_influx_query` does not raise the upstream HTTP error
for it — its guard is `status_code >= 400` — and instead returns the
decoded JSON body. -/
theorem influxQuery_non2xx_cex :
    ¬ (200 ≤ 304 ∧ 304 < 300) ∧
    influxQuery ⟨304, "", some .null⟩ = .ok .null :=
  ⟨by decide, rfl⟩

/-- Claim C6 (amended): `_influx_query` raises the upstream HTTP error
exactly when the response status is in `[400, 600)` — the statuses for
which `raise_for_status` raises — capturing a body excerpt of at most 2000
characters; for any other status it returns the decoded JSON payload. -/
theorem influxQuery_status_spec : ∀ r : HttpResp,
    (400 ≤ r.status ∧ r.status < 600 →
      influxQuery r = .error (.httpError r.status (strTake 2000 r.text)) ∧
      (strTake 2000 r.text).data.length ≤ 2000) ∧
    (¬ (400 ≤ r.status ∧ r.status < 600) →
      ∀ j, r.json = some j → influxQuery r = .ok j) := by
  intro r
  constructor
  · intro h
    refine ⟨?_, ?_⟩
    · unfold influxQuery
      rw [if_pos h]
    · simp only [strTake, List.length_take]
      exact min_le_left _ _
  · intro h j hj
    unfold influxQuery
    rw [if_neg h, hj]

/-- Witness for `influxQuery_status_spec`: a 500 response raises the HTTP
error with the body excerpt, and a 200 response returns its JSON body. -/
theorem influxQuery_status_spec_witness :
    influxQuery ⟨500, "boom", none⟩ = .error (.httpError 500 (strTake 2000 "boom")) ∧
    influxQuery ⟨200, "", some (.obj [])⟩ = .ok (.obj []) :=
  ⟨(influxQuery_status_spec ⟨500, "boom", none⟩).1 (by decide) |>.1,
   (influxQuery_status_spec ⟨200, "", some (.obj [])⟩).2 (by decide) (.obj []) rfl⟩

/-- Claim C9, counterexample to the uniform not-found reading: with the
debug flag off, the built-query endpoint answers with HTTP status 200 and
the plain-text body `"Not Found"`, not with a not-found (404) response. -/
theorem debug_endpoints_cex :
    debugQueryEndpoint false "24h" "geoip2influx" = ⟨"Not Found", 200⟩ ∧
    (debugQueryEndpoint false "24h" "geoip2influx").status ≠ 404 :=
  ⟨rfl, by decide⟩

/-- Claim C9 (amended): when the debug flag is off, the last-error endpoint
returns a 404 not-found JSON response, while the built-query endpoint
returns a 200 plain-text response whose body is the string `"Not Found"`;
when the debug flag is on, they return the currently-built query text and
the last recorded fetch error respectively. -/
theorem debug_endpoints_spec : ∀ (dbg : Bool) (w m : String) (lastErr : Option String),
    (dbg = false →
      debugQueryEndpoint dbg w m = ⟨"Not Found", 200⟩ ∧
      debugLastErrorEndpoint dbg lastErr = ⟨.obj [("detail", .str "Not Found")], 404⟩) ∧
    (dbg = true →
      debugQueryEndpoint dbg w m = ⟨buildQuery w m, 200⟩ ∧
      debugLastErrorEndpoint dbg lastErr = ⟨.obj [("last_error", optStr lastErr)], 200⟩) := by
  intro dbg w m lastErr
  constructor <;> rintro rfl <;> exact ⟨rfl, rfl⟩

/-- Witness for `debug_endpoints_spec` at concrete inputs, in both debug
modes. -/
theorem debug_endpoints_spec_witness :
    debugLastErrorEndpoint false (some "err") = ⟨.obj [("detail", .str "Not Found")], 404⟩ ∧
    debugQueryEndpoint true "24h" "geoip2influx" = ⟨buildQuery "24h" "geoip2influx", 200⟩ :=
  ⟨(debug_endpoints_spec false "24h" "geoip2influx" (some "err")).1 rfl |>.2,
   (debug_endpoints_spec true "24h" "geoip2influx" (some "err")).2 rfl |>.1⟩

end Heatmap

namespace Heatmap

/-- Claim C3: the point capper returns its input unchanged when the maximum
is non-positive or the list is short enough; otherwise it returns exactly
`max` points forming a sub-multiset of the input such that every returned
point's weight is at least every dropped point's weight. -/
theorem cap_spec : ∀ (points : List Point) (mx : Int),
    (mx ≤ 0 ∨ (points.length : Int) ≤ mx → cap points mx = points) ∧
    (0 < mx → mx < (points.length : Int) →
      (cap points mx).length = mx.toNat ∧
      ∃ dropped, points.Perm (cap points mx ++ dropped) ∧
        ∀ p ∈ cap points mx, ∀ q ∈ dropped, q.2.2 ≤ p.2.2) := by
  intro points mx
  constructor
  · intro h
    apply cap_eq_self_of_not
    rintro ⟨h1, h2, h3⟩
    omega
  · intro h1 h2
    have hcond : mx ≠ 0 ∧ 0 < mx ∧ mx < (points.length : Int) := ⟨by omega, h1, h2⟩
    refine ⟨length_cap_trunc h1 h2, (sortDesc points).drop mx.toNat, ?_, ?_⟩
    · rw [cap_eq_take hcond, List.take_append_drop]
      exact (sortDesc_perm points).symm
    · intro p hp q hq
      have hpw : List.Pairwise wge ((sortDesc points).take mx.toNat ++
          (sortDesc points).drop mx.toNat) := by
        rw [List.take_append_drop]
        exact sortDesc_sorted points
      rw [cap_eq_take hcond] at hp
      exact (List.pairwise_append.mp hpw).2.2 p hp q hq

/-- Witness for `cap_spec`: on weights `[1, 5, 3, 9, 2]` with `max = 3` the
capper keeps exactly three points, namely the points with weights
`9, 5, 3`; and with `max = 0` it is the identity. -/
theorem cap_spec_witness :
    (cap [(0, 0, 1), (0, 0, 5), (0, 0, 3), (0, 0, 9), (0, 0, 2)] 3).length = (3 : Int).toNat ∧
    cap [(0, 0, 1), (0, 0, 5), (0, 0, 3), (0, 0, 9), (0, 0, 2)] 3 =
      [(0, 0, 9), (0, 0, 5), (0, 0, 3)] ∧
    cap [(0, 0, 1), (0, 0, 5), (0, 0, 3), (0, 0, 9), (0, 0, 2)] 0 =
      [(0, 0, 1), (0, 0, 5), (0, 0, 3), (0, 0, 9), (0, 0, 2)] :=
  ⟨((cap_spec [(0, 0, 1), (0, 0, 5), (0, 0, 3), (0, 0, 9), (0, 0, 2)] 3).2
      (by decide) (by decide)).1,
   by decide,
   (cap_spec [(0, 0, 1), (0, 0, 5), (0, 0, 3), (0, 0, 9), (0, 0, 2)] 0).1
      (Or.inl (by decide))⟩

/-- Claim C8: the point capper is idempotent — applying it twice with the
same maximum gives the same result as applying it once, for every
`max >= 0`. -/
theorem cap_idempotent : ∀ (points : List Point) (mx : Int), 0 ≤ mx →
    cap (cap points mx) mx = cap points mx := by
  intro points mx _
  by_cases hc : mx ≠ 0 ∧ 0 < mx ∧ mx < (points.length : Int)
  · have hlen : (cap points mx).length = mx.toNat := length_cap_trunc hc.2.1 hc.2.2
    apply cap_eq_self_of_not
    rintro ⟨g1, g2, g3⟩
    rw [hlen] at g3
    omega
  · rw [cap_eq_self_of_not hc, cap_eq_self_of_not hc]

/-- Witness for `cap_idempotent` at a concrete truncating input. -/
theorem cap_idempotent_witness :
    cap (cap [(0, 0, 1), (0, 0, 5), (0, 0, 3), (0, 0, 9), (0, 0, 2)] 3) 3 =
      cap [(0, 0, 1), (0, 0, 5), (0, 0, 3), (0, 0, 9), (0, 0, 2)] 3 :=
  cap_idempotent [(0, 0, 1), (0, 0, 5), (0, 0, 3), (0, 0, 9), (0, 0, 2)] 3 (by decide)

/-- Claim C10: whenever capping actually truncates (positive maximum
exceeded by the list length), the returned point list is sorted in
non-increasing order of weight. -/
theorem cap_sorted_desc : ∀ (points : List Point) (mx : Int),
    0 < mx → mx < (points.length : Int) →
    List.Sorted wge (cap points mx) := by
  intro points mx h1 h2
  rw [cap_eq_take ⟨by omega, h1, h2⟩]
  exact List.Pairwise.sublist (List.take_sublist _ _) (sortDesc_sorted points)

/-- Witness for `cap_sorted_desc` at a concrete truncating input. -/
theorem cap_sorted_desc_witness :
    List.Sorted wge (cap [(0, 0, 1), (0, 0, 5), (0, 0, 3), (0, 0, 9), (0, 0, 2)] 3) :=
  cap_sorted_desc [(0, 0, 1), (0, 0, 5), (0, 0, 3), (0, 0, 9), (0, 0, 2)] 3
    (by decide) (by decide)

end Heatmap

namespace Heatmap

/-- Claim C4: in a Fresh cache state (positive TTL, `now - fetched_at` below
the TTL) the `/data` handler returns the cached points without invoking the
fetch pipeline; with TTL 30 a successful fetch at `t = 0` is followed by a
cache hit at `t = 29` and a renewed fetch at `t = 31`; and with
non-positive TTL every call invokes the fetch pipeline. -/
theorem data_cache_freshness :
    (∀ (ttl : Int) (dbg : Bool) (now : ℚ) (fetch : Except String (List Point))
        (st : CacheState), 0 < ttl → now - st.cache_at < (ttl : ℚ) →
      dataStep ttl dbg now fetch st = (st, .pts st.cache_points, false)) ∧
    (∀ (ttl : Int) (dbg : Bool) (now : ℚ) (fetch : Except String (List Point))
        (st : CacheState), ttl ≤ 0 →
      (dataStep ttl dbg now fetch st).2.2 = true) ∧
    (∀ (pts : List Point) (st0 : CacheState)
        (f2 f3 : Except String (List Point)),
      ¬ ((0 : ℚ) - st0.cache_at < 30) →
      (dataStep 30 false 0 (.ok pts) st0).2.2 = true ∧
      (dataStep 30 false 0 (.ok pts) st0).1 = ⟨0, pts, none⟩ ∧
      dataStep 30 false 29 f2 ⟨0, pts, none⟩ = (⟨0, pts, none⟩, .pts pts, false) ∧
      (dataStep 30 false 31 f3 ⟨0, pts, none⟩).2.2 = true) := by
  refine ⟨?_, ?_, ?_⟩
  · intro ttl dbg now fetch st h1 h2
    unfold dataStep
    rw [if_pos ⟨h1, h2⟩]
  · intro ttl dbg now fetch st h
    unfold dataStep
    rw [if_neg (by rintro ⟨g, _⟩; omega)]
    cases fetch <;> rfl
  · intro pts st0 f2 f3 h
    have hmiss : ¬ ((0 : Int) < 30 ∧ (0 : ℚ) - st0.cache_at < ((30 : Int) : ℚ)) := by
      rintro ⟨_, g⟩
      exact h (by exact_mod_cast g)
    refine ⟨?_, ?_, ?_, ?_⟩
    · unfold dataStep
      rw [if_neg hmiss]
    · unfold dataStep
      rw [if_neg hmiss]
    · unfold dataStep
      rw [if_pos ⟨by norm_num, by norm_num⟩]
    · unfold dataStep
      rw [if_neg (by rintro ⟨_, g⟩; norm_num at g)]
      cases f3 <;> rfl

/-- Witness for `data_cache_freshness`: the TTL-30 scenario run from a
concrete stale state, with the cache-hit call at `t = 29` discarding its
would-be fetch result. -/
theorem data_cache_freshness_witness :
    dataStep 30 false 29 (.error "boom") ⟨0, [(1, 2, 3)], none⟩ =
      (⟨0, [(1, 2, 3)], none⟩, .pts [(1, 2, 3)], false) ∧
    (dataStep 30 false 31 (.ok []) ⟨0, [(1, 2, 3)], none⟩).2.2 = true :=
  ⟨(data_cache_freshness.2.2 [(1, 2, 3)] ⟨-100, [], none⟩ (.error "boom") (.ok [])
      (by norm_num)).2.2.1,
   (data_cache_freshness.2.2 [(1, 2, 3)] ⟨-100, [], none⟩ (.error "boom") (.ok [])
      (by norm_num)).2.2.2⟩

/-- Claim C5: a stale-state call whose fetch fails resets the cached points
to the empty list, records a non-empty last-error, stamps `fetched_at` with
the current time, marks the fetch pipeline as invoked, and in non-debug
mode answers with an empty point list. -/
theorem data_failure_reset : ∀ (ttl : Int) (dbg : Bool) (now : ℚ) (e : String)
    (st : CacheState), ¬ (0 < ttl ∧ now - st.cache_at < (ttl : ℚ)) →
    (dataStep ttl dbg now (.error e) st).1 = ⟨now, [], some (pyRepr e)⟩ ∧
    pyRepr e ≠ "" ∧
    (dataStep ttl dbg now (.error e) st).2.2 = true ∧
    (dbg = false → (dataStep ttl dbg now (.error e) st).2.1 = .pts []) := by
  intro ttl dbg now e st h
  refine ⟨?_, ?_, ?_, ?_⟩
  · unfold dataStep
    rw [if_neg h]
  · intro hcontra
    have hdata := congrArg String.data hcontra
    simp [pyRepr, String.data_append] at hdata
  · unfold dataStep
    rw [if_neg h]
  · rintro rfl
    unfold dataStep
    rw [if_neg h]
    rfl

/-- Witness for `data_failure_reset`: a failing fetch observed from a cache
state holding points from a prior successful fetch. -/
theorem data_failure_reset_witness :
    (dataStep 30 false 200 (.error "boom") ⟨0, [(1, 2, 3)], none⟩).1 =
      ⟨200, [], some (pyRepr "boom")⟩ ∧
    pyRepr "boom" ≠ "" ∧
    (dataStep 30 false 200 (.error "boom") ⟨0, [(1, 2, 3)], none⟩).2.1 = .pts [] := by
  have h := data_failure_reset 30 false 200 "boom" ⟨0, [(1, 2, 3)], none⟩
    (by rintro ⟨_, g⟩; norm_num at g)
  exact ⟨h.1, h.2.1, h.2.2.2 rfl⟩

end Heatmap

namespace Heatmap

/-- Claim C7: the transformer emits a point only when the coerced count is
strictly positive: every point in any successful parse has strictly
positive weight (so a series whose count is missing, null, non-numeric,
zero, or negative never contributes a point), and the example series with
count 5 and valid latitude/longitude tags does produce its point, while
the same series with count 0, count -3, a null count, a non-numeric count,
a non-scalar count, or a value row without a count column produces
nothing. -/
theorem parse_weight_filter :
    (∀ (mx : Int) (payload : JVal) (pts : List Point),
      parsePointsE mx payload = .ok pts → ∀ p ∈ pts, 0 < p.2.2) ∧
    parsePointsE 20000 samplePayload = .ok [(mkRat 515 10, mkRat (-12) 100, 5)] ∧
    parsePointsE 20000 (samplePayloadWith (.num 0)) = .ok [] ∧
    parsePointsE 20000 (samplePayloadWith (.num (-3))) = .ok [] ∧
    parsePointsE 20000 (samplePayloadWith .null) = .ok [] ∧
    parsePointsE 20000 (samplePayloadWith (.str "oops")) = .ok [] ∧
    parsePointsE 20000 (samplePayloadWith (.arr [])) = .ok [] ∧
    parsePointsE 20000 (.obj [("results", .arr [
      .obj [("series", .arr [
        .obj [
          ("tags", .obj [("latitude", .str "51.5"), ("longitude", .str "-0.12")]),
          ("values", .arr [.arr [.str "t"]])]])]])]) = .ok [] :=
  ⟨fun _ _ _ h => parsePointsE_pos h, rfl, rfl, rfl, rfl, rfl, rfl, rfl⟩

/-- Witness for `parse_weight_filter`: its universally quantified positivity
part applied to the concrete successful parse of the example payload. -/
theorem parse_weight_filter_witness :
    parsePointsE 20000 samplePayload = .ok [(mkRat 515 10, mkRat (-12) 100, 5)] ∧
    (0 : ℚ) < (mkRat 515 10, mkRat (-12) 100, (5 : ℚ)).2.2 :=
  ⟨parse_weight_filter.2.1,
   parse_weight_filter.1 20000 samplePayload [(mkRat 515 10, mkRat (-12) 100, 5)]
     parse_weight_filter.2.1 (mkRat 515 10, mkRat (-12) 100, 5) (by simp)⟩

end Heatmap

namespace Heatmap

/-- Claim C2, counterexample to totality: on the JSON object with a truthy
non-list `results` value the transformer raises an uncaught `TypeError`
(Python subscripts `results[0]` on an integer), rather than returning a
point list. -/
theorem parsePoints_nontotal_cex :
    parsePointsE 20000 (.obj [("results", .num 42)]) = .error .typeError :=
  rfl

/-- Claim C2 (amended): the transformer returns the empty list for every
input object whose `results` entry is missing, null, or empty (falsy), and
for every input whose first result is an object with a missing, null, or
empty `series` entry; it returns without raising on every payload whose
container fields have the shapes the upstream store produces (`results` a
list of objects, `series` a list of objects, `tags` an object or falsy,
`values` falsy or a list starting with a list row) — but not on arbitrary
JSON objects. -/
theorem parsePoints_shape_spec :
    (∀ (mx : Int) (kvs : List (String × JVal)),
      truthy (lookupD kvs "results") = false →
      parsePointsE mx (.obj kvs) = .ok []) ∧
    (∀ (mx : Int) (kvs fkvs : List (String × JVal)) (rest : List JVal),
      lookupD kvs "results" = .arr (.obj fkvs :: rest) →
      truthy (lookupD fkvs "series") = false →
      parsePointsE mx (.obj kvs) = .ok []) ∧
    (∀ (mx : Int) (payload : JVal), wellShaped payload = true →
      ∃ pts, parsePointsE mx payload = .ok pts) := by
  refine ⟨fun mx kvs h => parsePointsE_ok_of_falsy_results h, ?_,
    fun mx payload h => parsePointsE_total h⟩
  intro mx kvs fkvs rest hres hser
  unfold parsePointsE
  simp only [pyGet, hres]
  rw [if_pos (by simp [truthy]), if_pos (by simp [truthy])]
  simp only [pySubscript, List.getElem?_cons_zero, pyGet]
  rw [if_neg (by simp [hser])]
  simp only [pyIter]
  rw [show seriesLoop [] [] = .ok [] from rfl]
  simp only []
  rw [cap_nil]

/-- Witness for `parsePoints_shape_spec`: a payload without `results`, a
payload whose first result lacks `series`, and the well-shaped example
payload. -/
theorem parsePoints_shape_spec_witness :
    parsePointsE 7 (.obj []) = .ok [] ∧
    parsePointsE 7 (.obj [("results", .arr [.obj []])]) = .ok [] ∧
    (∃ pts, parsePointsE 7 samplePayload = .ok pts) :=
  ⟨parsePoints_shape_spec.1 7 [] (by decide),
   parsePoints_shape_spec.2.1 7 [("results", .arr [.obj []])] [] [] rfl (by decide),
   parsePoints_shape_spec.2.2 7 samplePayload (by decide)⟩

end Heatmap
